import Mathlib

/-!
Verification of the retry / error-classification subsystem and the
conversation-window / cost-accounting logic of the ai-client-tool
repository, as a shallow embedding in Lean.

Sources embedded:
  - src/src/lib/errors.ts            (error taxonomy, classifyError, isRetryable)
  - src/lib/retry.ts                 (withRetry: exponential backoff with jitter)
  - src/src/lib/anthropic-client.ts  (calculateUsage)
  - src/src/lib/config.ts            (ConversationManager.getMessages)

Modelling conventions: JavaScript numbers are modelled as Int (status
codes) or Rat (token counts, prices, delays); values that may be
undefined are modelled as Option; a thrown JavaScript exception is an
Except error; the asynchronous retry loop is modelled as a pure
function that also records, in a trace, how many times the operation
was invoked and every onRetry observer call together with the delay it
was given. Randomness (Math.random jitter) is modelled by an explicit
jitter stream passed as a parameter.
-/

/-- The name tag carried by each error class of errors.ts; it identifies
the concrete class of the instance (the constructors below are the only
way errors are built, so the tag coincides with instanceof). -/
inductive ErrorName
  | aiClientError
  | authError
  | rateLimitError
  | serverError
  | validationError
  | networkError
  deriving DecidableEq, Repr

/-- An instance of the AIClientError hierarchy of errors.ts: the class
tag, the message, and the optional numeric statusCode field. -/
structure AIClientError where
  name : ErrorName
  message : String
  statusCode : Option Int
  deriving DecidableEq, Repr

/-- new AIClientError(message) with the optional statusCode absent. -/
def mkAIClientError (message : String) : AIClientError :=
  { name := .aiClientError, message := message, statusCode := none }

/-- new AuthError() with its default message; the constructor always
passes 401 to the base class, whatever status triggered it. -/
def mkAuthError : AIClientError :=
  { name := .authError
    message := "Authentication failed. Check your ANTHROPIC_API_KEY in config."
    statusCode := some 401 }

/-- new RateLimitError() with its default message and status 429. -/
def mkRateLimitError : AIClientError :=
  { name := .rateLimitError
    message := "Rate limited by Anthropic API. Retrying with backoff..."
    statusCode := some 429 }

/-- new ServerError(message, statusCode); an undefined message argument
selects the constructor default. -/
def mkServerError (message : Option String) (statusCode : Int) : AIClientError :=
  { name := .serverError
    message := message.getD "Anthropic service error. Retrying..."
    statusCode := some statusCode }

/-- new ValidationError(message) with status 400. -/
def mkValidationError (message : String) : AIClientError :=
  { name := .validationError, message := message, statusCode := some 400 }

/-- new NetworkError(message); an undefined message argument selects the
constructor default; no statusCode is set. -/
def mkNetworkError (message : Option String) : AIClientError :=
  { name := .networkError
    message := message.getD "Network error occurred. Check your connection."
    statusCode := none }

/-- A value thrown into classifyError or withRetry: either an already
classified AIClientError instance, an arbitrary raw failure descriptor
carrying optional status, statusCode, code and message fields, or the
JavaScript null / undefined value. -/
inductive RawError
  | classified (e : AIClientError)
  | descriptor (status statusCode : Option Int) (code : Option String)
      (message : Option String)
  | nullish
  deriving DecidableEq, Repr

/-- Is this caught value an instance of the AIClientError hierarchy? -/
def RawError.isClassified : RawError → Bool
  | .classified _ => true
  | _ => false

/-- A JavaScript exception raised by the embedded code itself (as opposed
to an error value it deliberately throws), e.g. a TypeError from reading
a property of null. -/
inductive JsException
  | typeError (message : String)
  deriving DecidableEq, Repr

/-- JavaScript a || b on two optional numbers: the number 0 (and an
absent value) is falsy and falls through to the right operand. -/
def jsOrNum (a b : Option Int) : Option Int :=
  match a with
  | some v => if v = 0 then b else some v
  | none => b

/-- JavaScript m || d on an optional string and a string default: an
absent value and the empty string are falsy. -/
def jsOrStr (a : Option String) (d : String) : String :=
  match a with
  | some s => if s = "" then d else s
  | none => d

/-- The status-code / transport-code cascade of classifyError
(errors.ts lines 84-109), applied to a raw (not already classified)
failure descriptor. statusCode here is the merged value of
error.status || error.statusCode. -/
def classifyDescriptor (status statusCode : Option Int) (code : Option String)
    (message : Option String) : AIClientError :=
  match jsOrNum status statusCode with
  | some v =>
    if v = 401 ∨ v = 403 then mkAuthError
    else if v = 429 then mkRateLimitError
    else if 500 ≤ v ∧ v < 600 then mkServerError message v
    else if 400 ≤ v ∧ v < 500 then mkValidationError (jsOrStr message "Bad request")
    else if code = some "ECONNREFUSED" ∨ code = some "ETIMEDOUT" then
      mkNetworkError message
    else mkAIClientError (jsOrStr message "Unknown error")
  | none =>
    if code = some "ECONNREFUSED" ∨ code = some "ETIMEDOUT" then
      mkNetworkError message
    else mkAIClientError (jsOrStr message "Unknown error")

/-- classifyError of errors.ts. An already classified error is returned
as-is. For null or undefined input the very first property read,
error.status, raises a TypeError: the function itself throws, which the
Except error tracks. -/
def classifyError : RawError → Except JsException AIClientError
  | .classified e => .ok e
  | .descriptor status statusCode code message =>
    .ok (classifyDescriptor status statusCode code message)
  | .nullish =>
    .error (.typeError "Cannot read properties of null or undefined (reading status)")

/-- isRetryable of errors.ts: instanceof checks against the three
retryable leaf classes. -/
def isRetryable (e : AIClientError) : Bool :=
  e.name = .rateLimitError || e.name = .serverError || e.name = .networkError

/-- isRetryable applied to whatever value the retry loop caught: a value
that is not an instance of one of the three classes (in particular any
raw descriptor, and null) fails every instanceof check. -/
def isRetryableCaught : RawError → Bool
  | .classified e => isRetryable e
  | _ => false

/- ----------------------------------------------------------------
Conversation window (ConversationManager.getMessages, config.ts)
---------------------------------------------------------------- -/

/-- Message role (types/index.ts). -/
inductive Role
  | user
  | assistant
  | system
  deriving DecidableEq, Repr

/-- A single conversation message (types/index.ts). -/
structure Message where
  role : Role
  content : String
  timestamp : Int
  deriving DecidableEq, Repr

/-- History configuration (types/index.ts). maxMessages is a
non-negative count. -/
structure HistoryConfig where
  enabled : Bool
  maxMessages : Nat
  deriving DecidableEq, Repr

/-- JavaScript xs.slice(-n) for a non-negative n. Negative zero equals
zero, so slice(-0) is slice(0) and returns the whole array; for positive
n it returns the last min(n, length) elements. -/
def jsSliceLast {α : Type} (xs : List α) (n : Nat) : List α :=
  if n = 0 then xs else xs.drop (xs.length - n)

/-- ConversationManager.getMessages (config.ts lines 184-193): if history
is disabled return only the last message via slice(-1); otherwise return
messages.slice(-maxMessages). -/
def getMessages (historyConfig : HistoryConfig) (messages : List Message) :
    List Message :=
  if !historyConfig.enabled then jsSliceLast messages 1
  else jsSliceLast messages historyConfig.maxMessages

/- ----------------------------------------------------------------
Usage accounting (AnthropicClient.calculateUsage, anthropic-client.ts)
---------------------------------------------------------------- -/

/-- Per-model pricing (types/index.ts): USD per 1000 tokens. -/
structure ModelPricing where
  inputPer1k : ℚ
  outputPer1k : ℚ
  deriving DecidableEq, Repr

/-- Token usage and cost statistics for a single request
(types/index.ts). -/
structure UsageStats where
  inputTokens : ℚ
  outputTokens : ℚ
  inputCost : ℚ
  outputCost : ℚ
  totalCost : ℚ
  deriving DecidableEq, Repr

/-- The slice of the application configuration that calculateUsage
reads: the active model and the pricing record, modelled as an
association list keyed by model identifier. -/
structure PricingConfig where
  defaultModel : String
  pricing : List (String × ModelPricing)
  deriving DecidableEq, Repr

/-- Record lookup config.pricing[config.defaultModel]: the value at the
key, or undefined when absent. -/
def PricingConfig.pricingFor (c : PricingConfig) : Option ModelPricing :=
  (c.pricing.find? (fun p => p.1 == c.defaultModel)).map (fun p => p.2)

/-- AnthropicClient.calculateUsage (anthropic-client.ts lines 89-114):
look up pricing for the active model; if absent, throw
classifyError(new Error("Pricing not configured for model: ...")) — a
plain Error has no status or code fields, only a message; otherwise
compute the two costs and their sum. -/
def calculateUsage (config : PricingConfig) (inputTokens outputTokens : ℚ) :
    Except AIClientError UsageStats :=
  match config.pricingFor with
  | none =>
    .error (classifyDescriptor none none none
      (some ("Pricing not configured for model: " ++ config.defaultModel)))
  | some pricing =>
    let inputCost := inputTokens / 1000 * pricing.inputPer1k
    let outputCost := outputTokens / 1000 * pricing.outputPer1k
    .ok { inputTokens := inputTokens
          outputTokens := outputTokens
          inputCost := inputCost
          outputCost := outputCost
          totalCost := inputCost + outputCost }

/- ----------------------------------------------------------------
Retry executor (withRetry, src/lib/retry.ts)
---------------------------------------------------------------- -/

/-- Retry configuration (types/index.ts). -/
structure RetryConfig where
  maxRetries : Nat
  baseDelayMs : ℚ
  maxDelayMs : ℚ
  deriving DecidableEq, Repr

/-- The observable outcome of one withRetry execution: the value the
promise settles with, how many times the operation was invoked, and the
onRetry observer calls in order, each with its 1-indexed attempt number
and the total delay passed to it. -/
structure RetryTrace (α : Type) where
  result : Except RawError α
  attempts : Nat
  retryCalls : List (Nat × ℚ)
  deriving Repr

/-- The body of the withRetry loop (retry.ts lines 24-51). fuel counts
the loop iterations still permitted; attempt is the loop counter. The
operation is modelled as a function of the attempt index so that a
different outcome per invocation can be expressed; the jitter stream
gives the value of Math.random() * 250 drawn before the retry with that
zero-indexed attempt. Fuel zero models the unreachable fall-through
after the loop (throw lastError). -/
def withRetryGo {α : Type} (operation : Nat → Except RawError α)
    (config : RetryConfig) (jitter : Nat → ℚ) :
    Nat → Nat → RetryTrace α
  | 0, _ => { result := .error .nullish, attempts := 0, retryCalls := [] }
  | fuel + 1, attempt =>
    match operation attempt with
    | .ok value => { result := .ok value, attempts := 1, retryCalls := [] }
    | .error err =>
      if !isRetryableCaught err || attempt == config.maxRetries then
        { result := .error err, attempts := 1, retryCalls := [] }
      else
        let exponentialDelay := config.baseDelayMs * 2 ^ attempt
        let delay := min exponentialDelay config.maxDelayMs
        let totalDelay := delay + jitter attempt
        let rest := withRetryGo operation config jitter fuel (attempt + 1)
        { result := rest.result
          attempts := rest.attempts + 1
          retryCalls := (attempt + 1, totalDelay) :: rest.retryCalls }

/-- withRetry (retry.ts lines 17-55): run the loop for attempt = 0 up to
config.maxRetries inclusive. -/
def withRetry {α : Type} (operation : Nat → Except RawError α)
    (config : RetryConfig) (jitter : Nat → ℚ) : RetryTrace α :=
  withRetryGo operation config jitter (config.maxRetries + 1) 0

/-- The capped exponential backoff delay computed before the retry with
zero-indexed attempt counter a (retry.ts lines 36-39). -/
def backoffDelay (config : RetryConfig) (a : Nat) : ℚ :=
  min (config.baseDelayMs * 2 ^ a) config.maxDelayMs

/-- A raw, never classified failure descriptor as the Anthropic SDK
could throw it on HTTP 429: a status field and a message, but not an
instance of the AIClientError hierarchy. -/
def raw429 : RawError :=
  .descriptor (some 429) none none (some "Too many requests")

/-- An operation that fails on every invocation with an already
classified rate-limit error. -/
def alwaysRateLimitedOp : Nat → Except RawError Unit :=
  fun _ => .error (.classified mkRateLimitError)

/-- An operation that fails with a classified rate-limit error on the
first two invocations and succeeds on the third. -/
def succeedsAtTwoOp : Nat → Except RawError Unit :=
  fun k => if k < 2 then .error (.classified mkRateLimitError) else .ok ()

/- ----------------------------------------------------------------
Lemmas about the retry loop
---------------------------------------------------------------- -/

/-- For an operation that fails every time with a retry-eligible error,
one run of the loop from a given attempt performs exactly fuel
invocations and records one observer call, with the capped backoff delay
plus jitter, before every attempt but the first. -/
theorem withRetryGo_always_error {α : Type} (op : Nat → Except RawError α)
    (cfg : RetryConfig) (jitter : Nat → ℚ) (e : RawError)
    (hop : ∀ k, op k = .error e) (hre : isRetryableCaught e = true) :
    ∀ fuel attempt, attempt + fuel = cfg.maxRetries + 1 → 1 ≤ fuel →
      withRetryGo op cfg jitter fuel attempt =
        { result := .error e
          attempts := fuel
          retryCalls := (List.range' attempt (fuel - 1)).map
            (fun a => (a + 1, min (cfg.baseDelayMs * 2 ^ a) cfg.maxDelayMs + jitter a)) } := by
  intro fuel
  induction fuel with
  | zero => intro attempt _ h; omega
  | succ m ih =>
    intro attempt hsum _
    rw [withRetryGo, hop]
    simp only [hre, Bool.not_true, Bool.false_or]
    by_cases hNa : attempt = cfg.maxRetries
    · have hm : m = 0 := by omega
      subst hm
      simp [hNa]
    · have hb : (attempt == cfg.maxRetries) = false := by
        simp [hNa]
      have hm : 1 ≤ m := by omega
      rw [hb]
      simp only [Bool.false_eq_true, if_false]
      rw [ih (attempt + 1) (by omega) hm]
      have hrange : List.range' attempt (m + 1 - 1) =
          attempt :: List.range' (attempt + 1) (m - 1) := by
        have : m + 1 - 1 = (m - 1) + 1 := by omega
        rw [this, List.range'_succ]
      rw [hrange]
      simp

/-- For an operation that fails retry-eligibly before attempt K and
succeeds at attempt K within the budget, the loop returns the success
and stops, having invoked the operation K + 1 - attempt times. -/
theorem withRetryGo_success_at {α : Type} (op : Nat → Except RawError α)
    (cfg : RetryConfig) (jitter : Nat → ℚ) (e : RawError) (K : Nat) (v : α)
    (hfail : ∀ j, j < K → op j = .error e) (hre : isRetryableCaught e = true)
    (hK : op K = .ok v) (hKN : K ≤ cfg.maxRetries) :
    ∀ fuel attempt, attempt + fuel = cfg.maxRetries + 1 → attempt ≤ K →
      (withRetryGo op cfg jitter fuel attempt).result = .ok v ∧
      (withRetryGo op cfg jitter fuel attempt).attempts = K + 1 - attempt := by
  intro fuel
  induction fuel with
  | zero => intro attempt hsum hle; omega
  | succ m ih =>
    intro attempt hsum hle
    by_cases hK0 : attempt = K
    · subst hK0
      rw [withRetryGo, hK]
      refine ⟨rfl, ?_⟩
      show 1 = attempt + 1 - attempt
      omega
    · have hlt : attempt < K := by omega
      rw [withRetryGo, hfail attempt hlt]
      simp only [hre, Bool.not_true, Bool.false_or]
      have hb : (attempt == cfg.maxRetries) = false := by
        simp; omega
      rw [hb]
      simp only [Bool.false_eq_true, if_false]
      have h2 := ih (attempt + 1) (by omega) (by omega)
      exact ⟨h2.1, by simp only [h2.2]; omega⟩

/-- If the operation fails on the first attempt and the failure is not
retry-eligible as caught, or the retry budget is zero, withRetry invokes
the operation exactly once, records no observer call, and propagates the
caught failure. -/
theorem withRetry_terminal_first {α : Type} (op : Nat → Except RawError α)
    (cfg : RetryConfig) (jitter : Nat → ℚ) (e : RawError)
    (h0 : op 0 = .error e)
    (h : isRetryableCaught e = false ∨ cfg.maxRetries = 0) :
    withRetry op cfg jitter = { result := .error e, attempts := 1, retryCalls := [] } := by
  rw [withRetry, withRetryGo, h0]
  rcases h with h | h
  · simp [h]
  · simp [h]

/-- Whatever the operation keeps failing with — retry-eligible or not,
classified or raw — withRetry settles with exactly that value, unchanged. -/
theorem withRetry_propagates_error {α : Type} (op : Nat → Except RawError α)
    (cfg : RetryConfig) (jitter : Nat → ℚ) (e : RawError)
    (hop : ∀ k, op k = .error e) :
    (withRetry op cfg jitter).result = .error e := by
  have key : ∀ fuel attempt, attempt + fuel = cfg.maxRetries + 1 → 1 ≤ fuel →
      (withRetryGo op cfg jitter fuel attempt).result = .error e := by
    intro fuel
    induction fuel with
    | zero => intro attempt _ h; omega
    | succ m ih =>
      intro attempt hsum _
      rw [withRetryGo, hop]
      by_cases hg : (!isRetryableCaught e || attempt == cfg.maxRetries) = true
      · simp only [hg, if_true]
      · simp only [hg, if_false]
        have hb : attempt ≠ cfg.maxRetries := by
          intro hEq
          exact hg (by simp [hEq])
        exact ih (attempt + 1) (by omega) (by omega)
  exact key (cfg.maxRetries + 1) 0 (by omega) (by omega)

/- ----------------------------------------------------------------
Claim theorems
---------------------------------------------------------------- -/

/-- Claim C1. The claim states that with history enabled and
maxMessages = 0 the context view returns an empty sequence even though
messages exist; the dedicated unit test asserts the same. The code
instead returns every message: messages.slice(-0) is messages.slice(0),
the whole array. This theorem evaluates the embedded code at the failing
input: one appended message, history enabled, maxMessages = 0. -/
theorem c1_maxMessages_zero_returns_all_messages :
    getMessages { enabled := true, maxMessages := 0 } [⟨.user, "Message", 0⟩]
      = [⟨.user, "Message", 0⟩]
    ∧ (getMessages { enabled := true, maxMessages := 0 }
        [⟨.user, "Message", 0⟩]).length = 1 := by
  exact ⟨rfl, rfl⟩

/-- Claim C2. The claim states that classifyError never itself throws and
that a null or absent input is classified as the base unknown failure
with message Unknown error; the unit tests assert the same. The code
instead reads error.status before any null check, so a null or undefined
input raises a TypeError: classifyError itself throws and never returns
a classified error for that input. -/
theorem c2_classifyError_throws_on_null :
    classifyError RawError.nullish =
      .error (.typeError "Cannot read properties of null or undefined (reading status)")
    ∧ (classifyError RawError.nullish).isOk = false := by
  exact ⟨rfl, rfl⟩

/-- Claim C6. isRetryable returns true exactly for the rate-limit,
server and network error kinds, and false for the auth, validation and
base kinds. -/
theorem c6_isRetryable_kinds (e : AIClientError) :
    (isRetryable e = true ↔
      e.name = .rateLimitError ∨ e.name = .serverError ∨ e.name = .networkError)
    ∧ (e.name = .authError ∨ e.name = .validationError ∨ e.name = .aiClientError →
        isRetryable e = false) := by
  cases e with
  | mk name message statusCode => cases name <;> simp [isRetryable]

/-- Witness for C6 at concrete errors: a rate-limit error is retryable
and an auth error is not. -/
theorem c6_witness :
    isRetryable mkRateLimitError = true ∧ isRetryable mkAuthError = false :=
  ⟨(c6_isRetryable_kinds mkRateLimitError).1.mpr (Or.inl rfl),
   (c6_isRetryable_kinds mkAuthError).2 (Or.inl rfl)⟩

/-- Claim C7. Whenever a pricing entry exists for the active model,
calculateUsage returns inputCost = inputTokens / 1000 * inputPer1k,
outputCost = outputTokens / 1000 * outputPer1k and
totalCost = inputCost + outputCost. -/
theorem c7_calculateUsage_formula (config : PricingConfig) (pricing : ModelPricing)
    (inputTokens outputTokens : ℚ) (hp : config.pricingFor = some pricing) :
    calculateUsage config inputTokens outputTokens =
      .ok ⟨inputTokens, outputTokens,
           inputTokens / 1000 * pricing.inputPer1k,
           outputTokens / 1000 * pricing.outputPer1k,
           inputTokens / 1000 * pricing.inputPer1k
             + outputTokens / 1000 * pricing.outputPer1k⟩ := by
  simp [calculateUsage, hp]

/-- Witness for C7 at the concrete instance of the claim:
computeUsage(1000, 2000, with inputPer1k 0.003 and outputPer1k 0.015)
yields inputCost 0.003, outputCost 0.030, totalCost 0.033. -/
theorem c7_witness :
    calculateUsage
        ⟨"claude-sonnet-4-5-20250929",
         [("claude-sonnet-4-5-20250929", ⟨3/1000, 15/1000⟩)]⟩ 1000 2000
      = .ok ⟨1000, 2000, 3/1000, 30/1000, 33/1000⟩ := by
  rw [c7_calculateUsage_formula
    ⟨"claude-sonnet-4-5-20250929",
     [("claude-sonnet-4-5-20250929", ⟨3/1000, 15/1000⟩)]⟩
    ⟨3/1000, 15/1000⟩ 1000 2000 rfl]
  norm_num

/-- Claim C9. With history enabled and maxMessages at least 1, the
context view is exactly the last min(maxMessages, length) messages: it
equals a drop of the front of the list (hence preserves chronological
order and is a suffix of the untouched conversation), and its length is
min(maxMessages, length), never more than exist. -/
theorem c9_context_window (cfg : HistoryConfig) (messages : List Message)
    (hen : cfg.enabled = true) (hmax : 1 ≤ cfg.maxMessages) :
    getMessages cfg messages = messages.drop (messages.length - cfg.maxMessages)
    ∧ (getMessages cfg messages).length = min cfg.maxMessages messages.length
    ∧ getMessages cfg messages <:+ messages
    ∧ (getMessages cfg messages).length ≤ messages.length := by
  have hne : cfg.maxMessages ≠ 0 := by omega
  have h1 : getMessages cfg messages
      = messages.drop (messages.length - cfg.maxMessages) := by
    simp [getMessages, hen, jsSliceLast, hne]
  refine ⟨h1, ?_, ?_, ?_⟩
  · rw [h1, List.length_drop]; omega
  · rw [h1]; exact List.drop_suffix _ _
  · rw [h1, List.length_drop]; omega

/-- Witness for C9: with maxMessages 4 and 6 appended messages the
context view is exactly the last 4 in original order. -/
theorem c9_witness :
    getMessages { enabled := true, maxMessages := 4 }
      [⟨.user, "Message 1", 0⟩, ⟨.assistant, "Response 1", 1⟩,
       ⟨.user, "Message 2", 2⟩, ⟨.assistant, "Response 2", 3⟩,
       ⟨.user, "Message 3", 4⟩, ⟨.assistant, "Response 3", 5⟩]
    = [⟨.user, "Message 2", 2⟩, ⟨.assistant, "Response 2", 3⟩,
       ⟨.user, "Message 3", 4⟩, ⟨.assistant, "Response 3", 5⟩] := by
  have h := c9_context_window { enabled := true, maxMessages := 4 }
    [⟨.user, "Message 1", 0⟩, ⟨.assistant, "Response 1", 1⟩,
     ⟨.user, "Message 2", 2⟩, ⟨.assistant, "Response 2", 3⟩,
     ⟨.user, "Message 3", 4⟩, ⟨.assistant, "Response 3", 5⟩] rfl (by norm_num)
  rw [h.1]
  rfl

/-- Claim C10. An unclassified failure descriptor with status 403 is
classified as an AuthError whose statusCode is 401: the original 403 is
not preserved — in contrast to the 5xx case, where the classified
server error carries the original status. -/
theorem c10_auth_statusCode_not_preserved (statusCode : Option Int)
    (code : Option String) (message : Option String) :
    classifyError (.descriptor (some 403) statusCode code message) = .ok mkAuthError
    ∧ mkAuthError.statusCode = some 401
    ∧ ∀ m : String,
        (classifyDescriptor (some 503) none none (some m)).statusCode = some 503 := by
  refine ⟨?_, rfl, ?_⟩
  · norm_num [classifyError, classifyDescriptor, jsOrNum]
  · intro m
    norm_num [classifyDescriptor, jsOrNum, mkServerError]

/-- Claim C3 counterexample. An operation that throws a raw,
unclassified descriptor with status 429 (which the classifier would map
to a retryable rate-limit error): withRetry propagates the raw
descriptor itself — not a classified error — after a single attempt,
because the instanceof-based eligibility check fails on raw values and
no classification happens inside withRetry. -/
theorem c3_counterexample :
    (withRetry (fun _ => (.error raw429 : Except RawError Unit)) ⟨3, 1000, 8000⟩
        (fun _ => 0)).result = .error raw429
    ∧ raw429.isClassified = false
    ∧ (withRetry (fun _ => (.error raw429 : Except RawError Unit)) ⟨3, 1000, 8000⟩
        (fun _ => 0)).attempts = 1
    ∧ isRetryable (classifyDescriptor (some 429) none none (some "Too many requests"))
        = true := by
  exact ⟨rfl, rfl, rfl, by decide⟩

/-- Claim C3 (amended). withRetry performs no classification of its own:
whatever failure the operation keeps throwing — classified or raw — is
propagated to the caller unchanged once it is not retry-eligible as
caught or the budget is exhausted; a failure that is not retry-eligible
as caught (in particular every raw unclassified descriptor) terminates
after a single attempt. Classification to a typed error happens inside
the operation built by AnthropicClient.sendMessage, before the failure
reaches withRetry. -/
theorem c3_withRetry_propagates_caught_failure_unchanged {α : Type}
    (op : Nat → Except RawError α) (cfg : RetryConfig) (jitter : Nat → ℚ)
    (e : RawError) (hop : ∀ k, op k = .error e) :
    (withRetry op cfg jitter).result = .error e
    ∧ (isRetryableCaught e = false → (withRetry op cfg jitter).attempts = 1) := by
  refine ⟨withRetry_propagates_error op cfg jitter e hop, fun hnr => ?_⟩
  rw [withRetry_terminal_first op cfg jitter e (hop 0) (Or.inl hnr)]

/-- Witness for the amended C3 at a concrete raw failure: the raw
descriptor comes back unchanged after one attempt. -/
theorem c3_witness :
    (withRetry (fun _ => (.error raw429 : Except RawError Unit)) ⟨2, 100, 1000⟩
        (fun _ => 0)).result = .error raw429
    ∧ (withRetry (fun _ => (.error raw429 : Except RawError Unit)) ⟨2, 100, 1000⟩
        (fun _ => 0)).attempts = 1 := by
  have h := c3_withRetry_propagates_caught_failure_unchanged
    (fun _ => (.error raw429 : Except RawError Unit)) ⟨2, 100, 1000⟩ (fun _ => 0)
    raw429 (fun _ => rfl)
  exact ⟨h.1, h.2 rfl⟩

/-- Claim C4. With maxRetries = N and a permanently failing
retry-eligible operation, withRetry invokes the operation exactly N + 1
times and the onRetry observer exactly N times (never on the terminal
failure); with maxRetries = 0 the operation runs exactly once regardless
of the failure; and a success on any attempt K within the budget returns
that success immediately after exactly K + 1 invocations. -/
theorem c4_attempt_and_observer_counts :
    (∀ (N : Nat) (base maxD : ℚ) (jitter : Nat → ℚ) {α : Type}
        (op : Nat → Except RawError α) (e : RawError),
        (∀ k, op k = .error e) → isRetryableCaught e = true →
        (withRetry op ⟨N, base, maxD⟩ jitter).attempts = N + 1
        ∧ (withRetry op ⟨N, base, maxD⟩ jitter).retryCalls.length = N)
    ∧ (∀ (base maxD : ℚ) (jitter : Nat → ℚ) {α : Type}
        (op : Nat → Except RawError α) (e : RawError),
        op 0 = .error e →
        (withRetry op ⟨0, base, maxD⟩ jitter).attempts = 1)
    ∧ (∀ (N K : Nat) (base maxD : ℚ) (jitter : Nat → ℚ) {α : Type}
        (op : Nat → Except RawError α) (e : RawError) (v : α),
        (∀ j, j < K → op j = .error e) → isRetryableCaught e = true →
        op K = .ok v → K ≤ N →
        (withRetry op ⟨N, base, maxD⟩ jitter).result = .ok v
        ∧ (withRetry op ⟨N, base, maxD⟩ jitter).attempts = K + 1) := by
  refine ⟨?_, ?_, ?_⟩
  · intro N base maxD jitter α op e hop hre
    have h := withRetryGo_always_error op ⟨N, base, maxD⟩ jitter e hop hre
      (N + 1) 0 (by simp) (by omega)
    constructor
    · show (withRetryGo op ⟨N, base, maxD⟩ jitter (N + 1) 0).attempts = N + 1
      rw [h]
    · show (withRetryGo op ⟨N, base, maxD⟩ jitter (N + 1) 0).retryCalls.length = N
      rw [h]
      simp
  · intro base maxD jitter α op e h0
    rw [withRetry_terminal_first op ⟨0, base, maxD⟩ jitter e h0 (Or.inr rfl)]
  · intro N K base maxD jitter α op e v hfail hre hK hKN
    have h := withRetryGo_success_at op ⟨N, base, maxD⟩ jitter e K v hfail hre hK hKN
      (N + 1) 0 (by simp) (by omega)
    refine ⟨h.1, ?_⟩
    have h2 : (withRetry op ⟨N, base, maxD⟩ jitter).attempts = K + 1 - 0 := h.2
    omega

/-- Witness for C4 at concrete operations: a permanently rate-limited
operation with maxRetries 3 runs 4 times with 3 observer calls; with
maxRetries 0 it runs once; an operation succeeding on its third
invocation under maxRetries 3 returns the success after 3 invocations. -/
theorem c4_witness :
    (withRetry alwaysRateLimitedOp ⟨3, 1000, 8000⟩ (fun _ => 0)).attempts = 4
    ∧ (withRetry alwaysRateLimitedOp ⟨3, 1000, 8000⟩ (fun _ => 0)).retryCalls.length = 3
    ∧ (withRetry alwaysRateLimitedOp ⟨0, 1000, 8000⟩ (fun _ => 0)).attempts = 1
    ∧ (withRetry succeedsAtTwoOp ⟨3, 1000, 8000⟩ (fun _ => 0)).result = .ok ()
    ∧ (withRetry succeedsAtTwoOp ⟨3, 1000, 8000⟩ (fun _ => 0)).attempts = 3 := by
  have h1 := c4_attempt_and_observer_counts.1 3 1000 8000 (fun _ => 0)
    alwaysRateLimitedOp (.classified mkRateLimitError) (fun _ => rfl) (by decide)
  have h2 := c4_attempt_and_observer_counts.2.1 1000 8000 (fun _ => 0)
    alwaysRateLimitedOp (.classified mkRateLimitError) rfl
  have h3 := c4_attempt_and_observer_counts.2.2 3 2 1000 8000 (fun _ => 0)
    succeedsAtTwoOp (.classified mkRateLimitError) ()
    (fun j hj => by simp [succeedsAtTwoOp, hj]) (by decide)
    (by simp [succeedsAtTwoOp]) (by omega)
  exact ⟨h1.1, h1.2, h2, h3.1, h3.2⟩

/-- For a permanently failing retry-eligible operation, the observer
calls recorded by withRetry are exactly, for each zero-indexed retry
count a below maxRetries, the pair of the 1-indexed attempt number a + 1
and the delay min(baseDelayMs * 2 ^ a, maxDelayMs) + jitter a. -/
theorem withRetry_retryCalls_always_error {α : Type}
    (op : Nat → Except RawError α) (cfg : RetryConfig) (jitter : Nat → ℚ)
    (e : RawError) (hop : ∀ k, op k = .error e)
    (hre : isRetryableCaught e = true) :
    (withRetry op cfg jitter).retryCalls =
      (List.range cfg.maxRetries).map
        (fun a => (a + 1, min (cfg.baseDelayMs * 2 ^ a) cfg.maxDelayMs + jitter a)) := by
  have h := withRetryGo_always_error op cfg jitter e hop hre
    (cfg.maxRetries + 1) 0 (by omega) (by omega)
  show (withRetryGo op cfg jitter (cfg.maxRetries + 1) 0).retryCalls = _
  rw [h, List.range_eq_range']
  simp

/-- Claim C5. Before each retry the recorded (and slept) delay equals
min(baseDelayMs * 2 ^ attempt, maxDelayMs) plus the jitter drawn for
that attempt; under the assumption that every jitter draw lies in
[0, 250), with maxRetries 3, baseDelayMs 1000, maxDelayMs 8000, the
delays for attempts 1, 2, 3 lie in [1000, 1250), [2000, 2250),
[4000, 4250), and with baseDelayMs 1000, maxDelayMs 2000 the third
delay is capped into [2000, 2250). -/
theorem c5_backoff_delay_values (jitter : Nat → ℚ)
    (hj : ∀ k, 0 ≤ jitter k ∧ jitter k < 250) {α : Type}
    (op : Nat → Except RawError α) (e : RawError)
    (hop : ∀ k, op k = .error e) (hre : isRetryableCaught e = true) :
    (∀ cfg : RetryConfig, (withRetry op cfg jitter).retryCalls =
      (List.range cfg.maxRetries).map
        (fun a => (a + 1, min (cfg.baseDelayMs * 2 ^ a) cfg.maxDelayMs + jitter a)))
    ∧ ((withRetry op ⟨3, 1000, 8000⟩ jitter).retryCalls =
        [(1, 1000 + jitter 0), (2, 2000 + jitter 1), (3, 4000 + jitter 2)]
      ∧ 1000 ≤ 1000 + jitter 0 ∧ 1000 + jitter 0 < 1250
      ∧ 2000 ≤ 2000 + jitter 1 ∧ 2000 + jitter 1 < 2250
      ∧ 4000 ≤ 4000 + jitter 2 ∧ 4000 + jitter 2 < 4250)
    ∧ ((withRetry op ⟨3, 1000, 2000⟩ jitter).retryCalls =
        [(1, 1000 + jitter 0), (2, 2000 + jitter 1), (3, 2000 + jitter 2)]
      ∧ 2000 ≤ 2000 + jitter 2 ∧ 2000 + jitter 2 < 2250) := by
  have key := fun cfg => withRetry_retryCalls_always_error op cfg jitter e hop hre
  have h0 := hj 0
  have h1 := hj 1
  have h2 := hj 2
  refine ⟨key, ⟨?_, by linarith, by linarith, by linarith, by linarith,
    by linarith, by linarith⟩, ⟨?_, by linarith, by linarith⟩⟩
  · rw [key ⟨3, 1000, 8000⟩]
    norm_num [List.range_succ, min_def]
  · rw [key ⟨3, 1000, 2000⟩]
    norm_num [List.range_succ, min_def]

/-- Witness for C5 with the zero jitter stream and a permanently
rate-limited operation: the three recorded delays are exactly 1000,
2000, 4000 under the cap 8000. -/
theorem c5_witness :
    (withRetry alwaysRateLimitedOp ⟨3, 1000, 8000⟩ (fun _ => 0)).retryCalls
      = [(1, 1000), (2, 2000), (3, 4000)] := by
  have h := c5_backoff_delay_values (fun _ => 0) (fun _ => by norm_num)
    alwaysRateLimitedOp (.classified mkRateLimitError) (fun _ => rfl) (by decide)
  have := h.2.1.1
  simpa using this

/-- Claim C8. When the pricing table has no entry for the active model,
calculateUsage fails with the classified configuration error: a base
AIClientError, which is not retry-eligible, so a retry executor wrapping
an operation that keeps failing with it makes exactly one attempt and
never calls the observer. -/
theorem c8_missing_pricing_never_retried (config : PricingConfig)
    (inputTokens outputTokens : ℚ) (hnone : config.pricingFor = none) :
    ∃ e : AIClientError,
      calculateUsage config inputTokens outputTokens = .error e
      ∧ e.name = .aiClientError
      ∧ isRetryable e = false
      ∧ ∀ (N : Nat) (base maxD : ℚ) (jitter : Nat → ℚ)
          (op : Nat → Except RawError Unit),
          (∀ k, op k = .error (.classified e)) →
          (withRetry op ⟨N, base, maxD⟩ jitter).attempts = 1
          ∧ (withRetry op ⟨N, base, maxD⟩ jitter).retryCalls = [] := by
  refine ⟨classifyDescriptor none none none
    (some ("Pricing not configured for model: " ++ config.defaultModel)),
    ?_, ?_, ?_, ?_⟩
  · simp [calculateUsage, hnone]
  · simp [classifyDescriptor, jsOrNum, mkAIClientError, mkNetworkError]
  · simp [classifyDescriptor, jsOrNum, isRetryable, mkAIClientError, mkNetworkError]
  · intro N base maxD jitter op hop
    have hnr : isRetryableCaught
        (.classified (classifyDescriptor none none none
          (some ("Pricing not configured for model: " ++ config.defaultModel))))
        = false := by
      simp [isRetryableCaught, classifyDescriptor, jsOrNum, isRetryable,
        mkAIClientError, mkNetworkError]
    rw [withRetry_terminal_first op ⟨N, base, maxD⟩ jitter _ (hop 0) (Or.inl hnr)]
    exact ⟨rfl, rfl⟩

/-- Witness for C8: a configuration whose pricing table is empty. -/
theorem c8_witness :
    ∃ e : AIClientError,
      calculateUsage ⟨"claude-sonnet-4-5-20250929", []⟩ 1000 2000 = .error e
      ∧ e.name = .aiClientError
      ∧ isRetryable e = false := by
  obtain ⟨e, h1, h2, h3, _⟩ := c8_missing_pricing_never_retried
    ⟨"claude-sonnet-4-5-20250929", []⟩ 1000 2000 rfl
  exact ⟨e, h1, h2, h3⟩
